import Mathlib

/-!
Verification of the conversational session-management and tool-routing layer of the
chefcognito recipe application. The definitions below are a shallow embedding of the
TypeScript sources: `src/lib/chat-service.ts`, `src/lib/recipe-service.ts`,
`src/lib/user-service.ts`, `src/lib/tool-service.ts`, `src/lib/workflow-service.ts`,
`src/app/api/chat/route.ts` and `src/app/api/generate-recipes/route.ts`. Timestamps are
epoch milliseconds modelled as `Int`, the document store is modelled as in-memory lists
with first-match `findOne`/`updateOne` semantics, `sort`/`limit` as sorting and `take`,
and storage-layer exceptions as a `dbFail` flag on the world. Calls into the external
LLM are out of scope; the surrounding parsing and fallback logic is embedded exactly.
-/

/-- Lowercasing as performed by JavaScript `toLowerCase` on the ASCII strings used by
the program, implemented character-wise so that it evaluates by kernel reduction. -/
def jsToLower (s : String) : String :=
  String.mk (s.data.map Char.toLower)

/-- Tests whether the first list is an initial segment of the second. -/
def startsWithL : List Char → List Char → Bool
  | [], _ => true
  | _ :: _, [] => false
  | a :: as, b :: bs => a == b && startsWithL as bs

/-- Tests whether `sub` occurs contiguously inside the second list, as JavaScript
`String.prototype.includes` does. -/
def hasSubL (sub : List Char) : List Char → Bool
  | [] => startsWithL sub []
  | a :: t => startsWithL sub (a :: t) || hasSubL sub t

/-- JavaScript `s.includes(sub)`. -/
def strIncludes (s sub : String) : Bool :=
  hasSubL sub.data s.data

/-- Specification-level statement that `sub` occurs contiguously inside `l`. -/
def OccursIn (sub l : List Char) : Prop :=
  ∃ p q, l = p ++ (sub ++ q)

/-- One stored chat turn (`ChatMessage` in `chat-service.ts`). -/
structure ChatMessage where
  userId : String
  sessionId : String
  role : String
  content : String
  timestamp : Int
  messageType : String
deriving Repr, DecidableEq

/-- Chat session metadata (`ChatSession` in `chat-service.ts`). -/
structure ChatSession where
  userId : String
  sessionId : String
  title : String
  createdAt : Int
  updatedAt : Int
  summary : Option String
  messageCount : Nat
  lastSummarizedAt : Option Int
deriving Repr, DecidableEq

/-- An ingredient detected from an uploaded photo (`DetectedIngredient`). -/
structure DetectedIngredient where
  name : String
  quantity : String
  confidence : ℚ
deriving Repr, DecidableEq

/-- One entry of a recipe ingredient list. -/
structure RecipeIngredient where
  item : String
  amount : String
  available : Bool
  substitute : Option String
deriving Repr, DecidableEq

/-- A stored recipe document (`Recipe` in `recipe-service.ts`). -/
structure Recipe where
  userId : String
  name : String
  description : String
  cookingTime : String
  difficulty : String
  servings : Nat
  category : String
  ingredients : List RecipeIngredient
  equipment : List String
  steps : List String
  tips : List String
  nutritionHighlights : List String
  sourceIngredients : List DetectedIngredient
  createdAt : Int
  updatedAt : Int
deriving Repr, DecidableEq

/-- One ingredient-to-recipes generation event (`RecipeSession`). -/
structure RecipeSession where
  userId : String
  sessionId : String
  sourceIngredients : List DetectedIngredient
  basicRecipes : List Recipe
  advancedRecipes : List Recipe
  createdAt : Int
deriving Repr, DecidableEq

/-- Stored per-user preferences (`User.preferences` in `user-service.ts`; note the
schema has no `favoriteIngredients` field). -/
structure UserPrefs where
  dietaryRestrictions : List String
  allergies : List String
  dislikedIngredients : List String
  preferredCuisines : List String
  cookingSkillLevel : String
  availableEquipment : List String
deriving Repr, DecidableEq

/-- A stored user document (`User` in `user-service.ts`). -/
structure User where
  clerkId : String
  email : String
  preferences : Option UserPrefs
deriving Repr, DecidableEq

/-- Runtime failures: a thrown `Error` from the storage layer, or a JavaScript
`TypeError` such as calling a method that does not exist. -/
inductive JsError where
  | typeError
  | dbError (msg : String)
deriving Repr, DecidableEq

/-- The state of the document store, together with a flag injecting storage-layer
exceptions (a failing database connection makes every collection access throw). -/
structure World where
  messages : List ChatMessage
  sessions : List ChatSession
  recipes : List Recipe
  recipeSessions : List RecipeSession
  users : List User
  dbFail : Bool

/-- Ascending timestamp order on chat messages (mongo `sort (timestamp: 1)`). -/
def msgAsc : ChatMessage → ChatMessage → Prop :=
  fun a b => a.timestamp ≤ b.timestamp

/-- Descending timestamp order on chat messages (mongo `sort (timestamp: -1)`). -/
def msgDesc : ChatMessage → ChatMessage → Prop :=
  fun a b => b.timestamp ≤ a.timestamp

instance : DecidableRel msgAsc :=
  fun a b => inferInstanceAs (Decidable (a.timestamp ≤ b.timestamp))

instance : DecidableRel msgDesc :=
  fun a b => inferInstanceAs (Decidable (b.timestamp ≤ a.timestamp))

instance : IsTotal ChatMessage msgAsc :=
  ⟨fun a b => Int.le_total a.timestamp b.timestamp⟩

instance : IsTrans ChatMessage msgAsc :=
  ⟨fun _ _ _ h1 h2 => le_trans h1 h2⟩

instance : IsTotal ChatMessage msgDesc :=
  ⟨fun a b => Int.le_total b.timestamp a.timestamp⟩

instance : IsTrans ChatMessage msgDesc :=
  ⟨fun _ _ _ h1 h2 => le_trans h2 h1⟩

/-- Descending `updatedAt` order on chat sessions. -/
def sessDesc : ChatSession → ChatSession → Prop :=
  fun a b => b.updatedAt ≤ a.updatedAt

instance : DecidableRel sessDesc :=
  fun a b => inferInstanceAs (Decidable (b.updatedAt ≤ a.updatedAt))

/-- Descending `createdAt` order on recipes. -/
def recDesc : Recipe → Recipe → Prop :=
  fun a b => b.createdAt ≤ a.createdAt

instance : DecidableRel recDesc :=
  fun a b => inferInstanceAs (Decidable (b.createdAt ≤ a.createdAt))

/-- Descending `createdAt` order on recipe sessions. -/
def rsessDesc : RecipeSession → RecipeSession → Prop :=
  fun a b => b.createdAt ≤ a.createdAt

instance : DecidableRel rsessDesc :=
  fun a b => inferInstanceAs (Decidable (b.createdAt ≤ a.createdAt))

instance : IsTotal RecipeSession rsessDesc :=
  ⟨fun a b => Int.le_total b.createdAt a.createdAt⟩

instance : IsTrans RecipeSession rsessDesc :=
  ⟨fun _ _ _ h1 h2 => le_trans h2 h1⟩

namespace ChatService

/-- Mongo `findOne (userId, sessionId)` over the sessions collection: the first stored
document matching both keys. -/
def findSession (w : World) (userId sessionId : String) : Option ChatSession :=
  w.sessions.find? (fun s => s.userId == userId && s.sessionId == sessionId)

/-- Mongo `updateOne` over the sessions collection: rewrites the first document
matching `(userId, sessionId)` with `f`, leaving the rest unchanged. -/
def updateFirst (userId sessionId : String) (f : ChatSession → ChatSession) :
    List ChatSession → List ChatSession
  | [] => []
  | x :: t =>
    if x.userId == userId && x.sessionId == sessionId then f x :: t
    else x :: updateFirst userId sessionId f t

/-- `ChatService.updateSessionMessageCount`: `$inc (messageCount: 1)` plus
`$set (updatedAt: now)` on the owning session; storage errors are caught and
swallowed. -/
def updateSessionMessageCount (w : World) (userId sessionId : String) (now : Int) :
    World :=
  if w.dbFail then w
  else
    { w with
      sessions := updateFirst userId sessionId
        (fun s => { s with messageCount := s.messageCount + 1, updatedAt := now })
        w.sessions }

/-- `ChatService.saveMessage`: inserts the message with a server-assigned timestamp,
then increments the owning session's message count; storage errors surface as a
generic save failure. -/
def saveMessage (w : World) (m : ChatMessage) (now : Int) : Except JsError World :=
  if w.dbFail then .error (.dbError "Failed to save message to database")
  else
    let w1 : World := { w with messages := w.messages ++ [{ m with timestamp := now }] }
    .ok (updateSessionMessageCount w1 m.userId m.sessionId now)

/-- Iterated `ChatService.saveMessage`, each call with the clock value current at that
call. -/
def saveMessages (w : World) : List (ChatMessage × Int) → Except JsError World
  | [] => .ok w
  | (m, t) :: rest =>
    match saveMessage w m t with
    | .ok w1 => saveMessages w1 rest
    | .error e => .error e

/-- `ChatService.createOrUpdateSession`: refresh `updatedAt` if the session exists,
otherwise create it with default title and zero message count. -/
def createOrUpdateSession (w : World) (userId sessionId : String)
    (title : Option String) (now : Int) : Except JsError (World × ChatSession) :=
  if w.dbFail then .error (.dbError "Failed to create or update session")
  else
    match findSession w userId sessionId with
    | some s =>
      .ok ({ w with
             sessions := updateFirst userId sessionId
               (fun x => { x with updatedAt := now }) w.sessions }, s)
    | none =>
      let s : ChatSession :=
        { userId := userId
          sessionId := sessionId
          title := title.getD "New Recipe Chat"
          createdAt := now
          updatedAt := now
          summary := none
          messageCount := 0
          lastSummarizedAt := none }
      .ok ({ w with sessions := w.sessions ++ [s] }, s)

/-- `ChatService.getRecentMessages`: messages of the session within the trailing
`hoursBack` window, oldest first; storage errors degrade to an empty list. -/
def getRecentMessages (w : World) (userId sessionId : String) (hoursBack : Int)
    (now : Int) : List ChatMessage :=
  if w.dbFail then []
  else
    let cutoffTime : Int := now - hoursBack * 60 * 60 * 1000
    List.insertionSort msgAsc
      (w.messages.filter (fun m =>
        m.userId == userId && m.sessionId == sessionId &&
        decide (cutoffTime ≤ m.timestamp)))

/-- `ChatService.getOlderMessages`: up to `limit` messages strictly before
`beforeDate`, selected newest first at the storage level and then reversed to be
oldest first; storage errors degrade to an empty list. -/
def getOlderMessages (w : World) (userId sessionId : String) (beforeDate : Int)
    (limit : Nat) : List ChatMessage :=
  if w.dbFail then []
  else
    ((List.insertionSort msgDesc
      (w.messages.filter (fun m =>
        m.userId == userId && m.sessionId == sessionId &&
        decide (m.timestamp < beforeDate)))).take limit).reverse

/-- `ChatService.shouldSummarizeSession`: true when strictly more than 5 messages of
the last 24 hours postdate `lastSummarizedAt` (all of them when never summarized);
false for a missing session and on storage errors. -/
def shouldSummarizeSession (w : World) (userId sessionId : String) (now : Int) :
    Bool :=
  if w.dbFail then false
  else
    match findSession w userId sessionId with
    | none => false
    | some session =>
      let recentMessages := getRecentMessages w userId sessionId 24 now
      let unsummarizedMessages :=
        match session.lastSummarizedAt with
        | some t =>
          recentMessages.filter (fun (m : ChatMessage) => decide (t < m.timestamp))
        | none => recentMessages
      decide (5 < unsummarizedMessages.length)

/-- `ChatService.getUserSessions`: the user's sessions, most recently updated first,
capped at `limit`; storage errors degrade to an empty list. -/
def getUserSessions (w : World) (userId : String) (limit : Nat) : List ChatSession :=
  if w.dbFail then []
  else
    (List.insertionSort sessDesc
      (w.sessions.filter (fun s => s.userId == userId))).take limit

end ChatService

/-- Count of stored messages of `(userId, sessionId)` that are inside the trailing
24-hour window and postdate the session's `lastSummarizedAt` (all of the windowed
messages when the session was never summarized). -/
def unsummarizedCount (w : World) (userId sessionId : String) (sess : ChatSession)
    (now : Int) : Nat :=
  (w.messages.filter (fun (m : ChatMessage) =>
    m.userId == userId && m.sessionId == sessionId &&
    decide (now - (24 : Int) * 60 * 60 * 1000 ≤ m.timestamp) &&
    (match sess.lastSummarizedAt with
     | some t => decide (t < m.timestamp)
     | none => true))).length

namespace RecipeService

/-- Storage-level query behind `RecipeService.getUserRecipes`: the user's recipe
documents, newest first, capped at `limit`. -/
def userRecipesQuery (w : World) (userId : String) (limit : Nat) : List Recipe :=
  (List.insertionSort recDesc
    (w.recipes.filter (fun r => r.userId == userId))).take limit

/-- `RecipeService.getUserRecipes`; storage errors propagate as a generic fetch
failure. -/
def getUserRecipes (w : World) (userId : String) (limit : Nat) :
    Except JsError (List Recipe) :=
  if w.dbFail then .error (.dbError "Failed to fetch user recipes")
  else .ok (userRecipesQuery w userId limit)

/-- `RecipeService.getRecipeSession`: `findOne (userId, sessionId)` over the recipe
sessions collection. -/
def getRecipeSession (w : World) (userId sessionId : String) :
    Except JsError (Option RecipeSession) :=
  if w.dbFail then .error (.dbError "Failed to fetch recipe session")
  else
    .ok (w.recipeSessions.find? (fun s => s.userId == userId && s.sessionId == sessionId))

/-- Storage-level query behind `RecipeService.getUserRecipeSessions`: the user's
recipe sessions, newest first (`sort (createdAt: -1)`), capped at `limit`. -/
def recipeSessionsQuery (w : World) (userId : String) (limit : Nat) :
    List RecipeSession :=
  (List.insertionSort rsessDesc
    (w.recipeSessions.filter (fun s => s.userId == userId))).take limit

/-- `RecipeService.getUserRecipeSessions`; storage errors propagate. -/
def getUserRecipeSessions (w : World) (userId : String) (limit : Nat) :
    Except JsError (List RecipeSession) :=
  if w.dbFail then .error (.dbError "Failed to fetch user recipe sessions")
  else .ok (recipeSessionsQuery w userId limit)

/-- Case-insensitive substring match of `query` against a recipe's name, description
or ingredient items (the `$regex ... $options "i"` disjunction). -/
def searchMatch (query : String) (r : Recipe) : Bool :=
  strIncludes (jsToLower r.name) (jsToLower query) ||
  strIncludes (jsToLower r.description) (jsToLower query) ||
  r.ingredients.any (fun i => strIncludes (jsToLower i.item) (jsToLower query))

/-- `RecipeService.searchRecipes`: matching recipes of the user, newest first, capped
at `limit`; storage errors propagate. -/
def searchRecipes (w : World) (userId query : String) (limit : Nat) :
    Except JsError (List Recipe) :=
  if w.dbFail then .error (.dbError "Failed to search recipes")
  else
    .ok ((List.insertionSort recDesc
      (w.recipes.filter (fun r => r.userId == userId && searchMatch query r))).take limit)

end RecipeService

/-- Call made by `ToolService.getUserPreferences`. The `UserService` class in
`src/lib/user-service.ts` defines only the instance methods `createOrUpdateUser`,
`getUserByClerkId` and `updateUserPreferences`; no method named `getUser` exists
anywhere in the repository, so evaluating `UserService.getUser(userId)` raises a
`TypeError` at runtime regardless of the stored data. -/
def UserService.getUser (_w : World) (_userId : String) : Except JsError User :=
  .error .typeError

/-- Parameter mapping of a tool call; absent keys are `none`, mirroring the untyped
`Record<string, any>` whose handlers destructure with per-key defaults. -/
structure ToolParams where
  sessionId : Option String
  daysBack : Option Nat
  limit : Option Nat
  category : Option String
  difficulty : Option String
  query : Option String
  recipeName : Option String
deriving Repr, DecidableEq

/-- The empty parameter mapping. -/
def ToolParams.empty : ToolParams :=
  ⟨none, none, none, none, none, none, none⟩

/-- A structured tool call (`ToolCall` in `tool-service.ts`). -/
structure ToolCall where
  tool : String
  parameters : ToolParams
  description : String
deriving Repr, DecidableEq

/-- Projection of a chat message returned by the chat-history tool. -/
structure MsgView where
  role : String
  content : String
  timestamp : Int
  messageType : String
deriving Repr, DecidableEq

/-- Projection of a recipe returned by the user-recipes tool. -/
structure RecipeListView where
  name : String
  description : String
  difficulty : String
  cookingTime : String
  category : String
  createdAt : Int
deriving Repr, DecidableEq

/-- Projection of a recipe returned by the recipe-search tool. -/
structure RecipeSearchView where
  name : String
  description : String
  ingredients : List RecipeIngredient
  difficulty : String
  cookingTime : String
deriving Repr, DecidableEq

/-- The six preference sub-fields assembled by the preferences tool. -/
structure PrefsView where
  dietaryRestrictions : List String
  allergies : List String
  favoriteIngredients : List String
  dislikedIngredients : List String
  cookingSkillLevel : String
  preferredCuisines : List String
deriving Repr, DecidableEq

/-- Projection of a recipe session returned by the cooking-history tool. -/
structure CookingHistoryView where
  sessionId : String
  createdAt : Int
  ingredientsUsed : List String
  recipesGenerated : List String
deriving Repr, DecidableEq

/-- Projection of a chat session returned by the conversation-search tool. -/
structure ConversationView where
  sessionId : String
  title : String
  summary : Option String
  createdAt : Int
  messageCount : Nat
deriving Repr, DecidableEq

/-- The tool-specific shapes of the `data` payload of a tool response. -/
inductive ToolData where
  | messages (l : List MsgView)
  | recipeList (l : List RecipeListView)
  | recipeSearch (l : List RecipeSearchView)
  | recipeDetail (r : Recipe)
  | prefs (p : PrefsView)
  | ingredientList (l : List DetectedIngredient)
  | cookingHistory (l : List CookingHistoryView)
  | conversations (l : List ConversationView)
deriving Repr, DecidableEq

/-- The uniform result envelope (`ToolResponse` in `tool-service.ts`); `data := none`
models a `null` payload. -/
structure ToolResponse where
  success : Bool
  data : Option ToolData
  message : String
deriving Repr, DecidableEq

namespace ToolService

/-- `ToolService.getChatHistory`: older messages of the given session, with defaults
`daysBack = 7` and `limit = 50`. A missing `sessionId` is passed through to the
storage query, where it matches no stored message. -/
def getChatHistory (w : World) (now : Int) (userId : String) (p : ToolParams) :
    Except JsError ToolResponse :=
  let sessionId := p.sessionId.getD ""
  let daysBack := p.daysBack.getD 7
  let limit := p.limit.getD 50
  let beforeDate : Int := now - (daysBack : Int) * 24 * 60 * 60 * 1000
  let messages := ChatService.getOlderMessages w userId sessionId beforeDate limit
  .ok
    { success := true
      data := some (.messages (messages.map
        (fun m => ⟨m.role, m.content, m.timestamp, m.messageType⟩)))
      message := "Retrieved " ++ toString messages.length ++
        " messages from the last " ++ toString daysBack ++ " days" }

/-- `ToolService.getUserRecipes`: the user's recipes with default `limit = 20`,
post-filtered by `category` and `difficulty` when those are present and non-empty
(JavaScript truthiness). -/
def getUserRecipes (w : World) (_now : Int) (userId : String) (p : ToolParams) :
    Except JsError ToolResponse := do
  let limit := p.limit.getD 20
  let recipes0 ← RecipeService.getUserRecipes w userId limit
  let recipes1 :=
    match p.category with
    | some c => if c == "" then recipes0 else recipes0.filter (fun r => r.category == c)
    | none => recipes0
  let recipes :=
    match p.difficulty with
    | some d => if d == "" then recipes1 else recipes1.filter (fun r => r.difficulty == d)
    | none => recipes1
  .ok
    { success := true
      data := some (.recipeList (recipes.map
        (fun r => ⟨r.name, r.description, r.difficulty, r.cookingTime, r.category,
          r.createdAt⟩)))
      message := "Retrieved " ++ toString recipes.length ++ " recipes" }

/-- `ToolService.searchRecipes`: requires a non-empty query (JavaScript truthiness),
default `limit = 10`. -/
def searchRecipes (w : World) (_now : Int) (userId : String) (p : ToolParams) :
    Except JsError ToolResponse :=
  if p.query.getD "" == "" then
    .ok { success := false, data := none, message := "Search query is required" }
  else do
    let query := p.query.getD ""
    let recipes ← RecipeService.searchRecipes w userId query (p.limit.getD 10)
    .ok
      { success := true
        data := some (.recipeSearch (recipes.map
          (fun r => ⟨r.name, r.description, r.ingredients, r.difficulty,
            r.cookingTime⟩)))
        message := "Found " ++ toString recipes.length ++ " recipes matching \"" ++
          query ++ "\"" }

/-- `ToolService.getRecipeDetails`: looks inside the named recipe session first (when
a non-empty `sessionId` is supplied), then searches the user's recipes; a missing
`recipeName` raises a `TypeError` when the code calls `toLowerCase` on it. -/
def getRecipeDetails (w : World) (_now : Int) (userId : String) (p : ToolParams) :
    Except JsError ToolResponse := do
  match p.recipeName with
  | none => .error .typeError
  | some recipeName => do
    let fromSession : Option Recipe ←
      match p.sessionId with
      | some sid =>
        if sid == "" then pure none
        else do
          let sess ← RecipeService.getRecipeSession w userId sid
          pure
            (match sess with
             | some s =>
               (s.basicRecipes ++ s.advancedRecipes).find?
                 (fun r => strIncludes (jsToLower r.name) (jsToLower recipeName))
             | none => none)
      | none => pure none
    match fromSession with
    | some recipe =>
      .ok { success := true, data := some (.recipeDetail recipe),
            message := "Retrieved details for recipe: " ++ recipe.name }
    | none => do
      let recipes ← RecipeService.searchRecipes w userId recipeName 5
      match recipes.find?
          (fun r => strIncludes (jsToLower r.name) (jsToLower recipeName)) with
      | some recipe =>
        .ok { success := true, data := some (.recipeDetail recipe),
              message := "Retrieved details for recipe: " ++ recipe.name }
      | none =>
        .ok { success := false, data := none,
              message := "Recipe \"" ++ recipeName ++ "\" not found" }

/-- `ToolService.getUserPreferences`: fetches the user and assembles the six
preference sub-fields with their defaults; its own `try`/`catch` converts any failure
into an unsuccessful envelope. Because `UserService.getUser` does not exist, the
success branch is unreachable at runtime. -/
def getUserPreferences (w : World) (_now : Int) (userId : String) (_p : ToolParams) :
    Except JsError ToolResponse :=
  match UserService.getUser w userId with
  | .ok user =>
    .ok
      { success := true
        data := some (.prefs
          { dietaryRestrictions := (user.preferences.map (·.dietaryRestrictions)).getD []
            allergies := (user.preferences.map (·.allergies)).getD []
            favoriteIngredients := []
            dislikedIngredients := (user.preferences.map (·.dislikedIngredients)).getD []
            cookingSkillLevel :=
              ((user.preferences.map (·.cookingSkillLevel)).getD "beginner")
            preferredCuisines := (user.preferences.map (·.preferredCuisines)).getD [] })
        message := "Retrieved user preferences" }
  | .error _ =>
    .ok { success := false, data := none,
          message := "Failed to retrieve user preferences" }

/-- One step of the `reduce` in `ToolService.getRecentIngredients`: append the
ingredient unless one with the same case-insensitive name is already accumulated. -/
def dedupStep (acc : List DetectedIngredient) (ingredient : DetectedIngredient) :
    List DetectedIngredient :=
  match acc.find? (fun i => jsToLower i.name == jsToLower ingredient.name) with
  | some _ => acc
  | none => acc ++ [ingredient]

/-- The deduplication `reduce` of `ToolService.getRecentIngredients`: keeps the first
occurrence of each case-insensitive ingredient name. -/
def dedupIngredients (l : List DetectedIngredient) : List DetectedIngredient :=
  l.foldl dedupStep []

/-- Source ingredients of the user's recipe sessions, flattened in the newest-first
order produced by `RecipeService.getUserRecipeSessions`. -/
def recentSourceIngredients (w : World) (userId : String) (limit : Nat) :
    List DetectedIngredient :=
  (RecipeService.recipeSessionsQuery w userId limit).flatMap
    (fun s => s.sourceIngredients)

/-- `ToolService.getRecentIngredients`: default `limit = 10`, flattens the newest-first
sessions, deduplicates by case-insensitive name and truncates to `limit`. -/
def getRecentIngredients (w : World) (_now : Int) (userId : String) (p : ToolParams) :
    Except JsError ToolResponse := do
  let limit := p.limit.getD 10
  let recentSessions ← RecipeService.getUserRecipeSessions w userId limit
  let ingredients := recentSessions.flatMap (fun s => s.sourceIngredients)
  let uniqueIngredients := dedupIngredients ingredients
  .ok
    { success := true
      data := some (.ingredientList (uniqueIngredients.take limit))
      message := "Retrieved " ++ toString uniqueIngredients.length ++
        " recent ingredients" }

/-- `ToolService.getCookingHistory`: defaults `daysBack = 30`, `limit = 20`; recipe
sessions newer than the cutoff, projected. -/
def getCookingHistory (w : World) (now : Int) (userId : String) (p : ToolParams) :
    Except JsError ToolResponse := do
  let daysBack := p.daysBack.getD 30
  let limit := p.limit.getD 20
  let sessions ← RecipeService.getUserRecipeSessions w userId limit
  let cutoffDate : Int := now - (daysBack : Int) * 24 * 60 * 60 * 1000
  let recentSessions := sessions.filter (fun s => decide (cutoffDate ≤ s.createdAt))
  .ok
    { success := true
      data := some (.cookingHistory (recentSessions.map
        (fun s => ⟨s.sessionId, s.createdAt, s.sourceIngredients.map (·.name),
          s.basicRecipes.map (·.name) ++ s.advancedRecipes.map (·.name)⟩)))
      message := "Retrieved cooking history for the last " ++ toString daysBack ++
        " days" }

/-- `ToolService.searchConversations`: requires a non-empty query; defaults
`daysBack = 30`, `limit = 10`; searches titles and summaries of up to 50 of the
user's sessions newer than the cutoff. -/
def searchConversations (w : World) (now : Int) (userId : String) (p : ToolParams) :
    Except JsError ToolResponse :=
  if p.query.getD "" == "" then
    .ok { success := false, data := none, message := "Search query is required" }
  else
    let query := p.query.getD ""
    let daysBack := p.daysBack.getD 30
    let limit := p.limit.getD 10
    let sessions := ChatService.getUserSessions w userId 50
    let cutoffDate : Int := now - (daysBack : Int) * 24 * 60 * 60 * 1000
    let recentSessions := sessions.filter (fun s => decide (cutoffDate ≤ s.createdAt))
    let matchingSessions := recentSessions.filter (fun s =>
      strIncludes (jsToLower s.title) (jsToLower query) ||
      (match s.summary with
       | some sm => strIncludes (jsToLower sm) (jsToLower query)
       | none => false))
    .ok
      { success := true
        data := some (.conversations ((matchingSessions.take limit).map
          (fun s => ⟨s.sessionId, s.title, s.summary, s.createdAt, s.messageCount⟩)))
        message := "Found " ++ toString matchingSessions.length ++
          " conversations matching \"" ++ query ++ "\"" }

/-- The `switch` statement of `ToolService.executeTool`: dispatch to exactly one of
the eight fixed handlers; unknown names produce an in-band failure envelope. -/
def dispatchTool (w : World) (now : Int) (userId : String) (tc : ToolCall) :
    Except JsError ToolResponse :=
  if tc.tool == "get_chat_history" then getChatHistory w now userId tc.parameters
  else if tc.tool == "get_user_recipes" then getUserRecipes w now userId tc.parameters
  else if tc.tool == "search_recipes" then searchRecipes w now userId tc.parameters
  else if tc.tool == "get_recipe_details" then getRecipeDetails w now userId tc.parameters
  else if tc.tool == "get_user_preferences" then getUserPreferences w now userId tc.parameters
  else if tc.tool == "get_recent_ingredients" then getRecentIngredients w now userId tc.parameters
  else if tc.tool == "get_cooking_history" then getCookingHistory w now userId tc.parameters
  else if tc.tool == "search_conversations" then searchConversations w now userId tc.parameters
  else .ok { success := false, data := none, message := "Unknown tool: " ++ tc.tool }

/-- `ToolService.executeTool`: the dispatch wrapped in `try`/`catch`, so every thrown
error becomes an unsuccessful envelope naming the tool and nothing propagates to the
caller. -/
def executeTool (w : World) (now : Int) (userId : String) (tc : ToolCall) :
    ToolResponse :=
  match dispatchTool w now userId tc with
  | .ok r => r
  | .error _ =>
    { success := false, data := none,
      message := "Failed to execute tool: " ++ tc.tool }

/-- The eight tool names handled by the dispatch `switch`. -/
def handledTools : List String :=
  ["get_chat_history", "get_user_recipes", "search_recipes", "get_recipe_details",
   "get_user_preferences", "get_recent_ingredients", "get_cooking_history",
   "search_conversations"]

end ToolService

/-- The workflow state fields relevant to the context-need branch of
`RecipeWorkflowService` (`workflow-service.ts`). -/
structure WfState where
  userMessage : String
  context : List ChatMessage
  needsOlderContext : Bool
deriving Repr, DecidableEq

/-- The flag computed by `RecipeWorkflowService.checkContextNeed`: the lowercased user
message contains one of the four literal substrings. -/
def checkContextNeed (userMessage : String) : Bool :=
  strIncludes (jsToLower userMessage) "yesterday" ||
  strIncludes (jsToLower userMessage) "earlier" ||
  strIncludes (jsToLower userMessage) "before" ||
  strIncludes (jsToLower userMessage) "previous"

/-- The `checkContextNeed` workflow node: stores the flag into the state. -/
def checkContextNeedStep (st : WfState) : WfState :=
  { st with needsOlderContext := checkContextNeed st.userMessage }

/-- `RecipeWorkflowService.shouldLoadOlderContext`: the conditional-edge selector,
returning the name of the next node. -/
def shouldLoadOlderContext (st : WfState) : String :=
  if st.needsOlderContext then "loadOlder" else "generate"

/-- A parsed model reply in the single-call chat handler (`app/api/chat/route.ts`):
a `type` tag plus the tool-call fields used when `type = "tool_call"`. -/
structure AiMsg where
  type : String
  tool : String
  parameters : ToolParams
  message : String
deriving Repr, DecidableEq

/-- Outcome of extracting and parsing JSON from the second model response: the regex
finds no brace span (the first response object is kept), the found span fails
`JSON.parse` (a canned fallback is used), or it parses to a reply object. -/
inductive SecondParse where
  | noMatch
  | failed
  | parsed (a : AiMsg)
deriving Repr, DecidableEq

/-- The canned reply used when the second model response fails to parse, worded by the
success of the executed tool call. -/
def toolFallback (success : Bool) : AiMsg :=
  { type := "general"
    tool := ""
    parameters := ToolParams.empty
    message :=
      if success then
        "Based on the information I found, I can help you with your cooking questions. What would you like to know?"
      else
        "I had trouble accessing that information, but I\x27m still here to help with your cooking questions!" }

/-- The tool-calling phase of the single-call chat handler: when the first parsed
response is a `tool_call` directive, execute that one tool, re-prompt, and let the
second response (however it parses) stand as the final answer; otherwise the first
response is final. The second component records which tool calls were executed. -/
def chatToolPhase (w : World) (now : Int) (userId : String) (first : AiMsg)
    (second : SecondParse) : AiMsg × List ToolCall :=
  if first.type == "tool_call" then
    let tc : ToolCall := ⟨first.tool, first.parameters, first.message⟩
    let toolResponse := ToolService.executeTool w now userId tc
    let final :=
      match second with
      | .parsed a => a
      | .noMatch => first
      | .failed => toolFallback toolResponse.success
    (final, [tc])
  else (first, [])

/-- A recipe as parsed from (or substituted for) the generation model's reply in
`app/api/generate-recipes/route.ts`. -/
structure GenRecipe where
  name : String
  description : String
  cookingTime : String
  difficulty : String
  servings : Nat
  ingredients : List RecipeIngredient
  equipment : List String
  steps : List String
  tips : List String
  nutritionHighlights : List String
deriving Repr, DecidableEq

/-- The payload shape expected from the generation model. -/
structure RecipePayload where
  basicRecipes : List GenRecipe
  advancedRecipes : List GenRecipe
deriving Repr, DecidableEq

/-- The hard-coded fallback recipe: ingredients are the detected input list verbatim,
each marked available. -/
def fallbackStirFry (ingredients : List DetectedIngredient) : GenRecipe :=
  { name := "Simple Stir Fry"
    description := "Quick and easy stir fry with available ingredients"
    cookingTime := "15 minutes"
    difficulty := "Beginner"
    servings := 2
    ingredients := ingredients.map (fun ing =>
      { item := ing.name, amount := ing.quantity, available := true, substitute := none })
    equipment := ["Pan", "Stove"]
    steps :=
      ["Heat oil in a pan over medium heat",
       "Add ingredients and stir fry for 10-12 minutes",
       "Season with salt and pepper to taste",
       "Serve hot"]
    tips := ["Keep ingredients moving in the pan for even cooking"]
    nutritionHighlights := ["Fresh vegetables provide vitamins and fiber"] }

/-- The full fallback payload: one basic stir-fry recipe and no advanced recipes. -/
def fallbackPayload (ingredients : List DetectedIngredient) : RecipePayload :=
  { basicRecipes := [fallbackStirFry ingredients], advancedRecipes := [] }

/-- Index of the last occurrence of `c` in `l`. -/
def lastIdxOf (c : Char) (l : List Char) : Option Nat :=
  match l.reverse.findIdx? (fun x => x == c) with
  | some k => some (l.length - 1 - k)
  | none => none

/-- The brace-span extraction performed by matching the model text against the greedy
pattern of an opening brace, anything, and a closing brace: the span from the first
opening brace to the last closing brace after it, when such a pair exists. -/
def extractJsonSpan (text : String) : Option String :=
  match text.data.findIdx? (fun x => x == '\x7b'), lastIdxOf '\x7d' text.data with
  | some i, some j =>
    if i < j then some (String.mk ((text.data.drop i).take (j - i + 1)))
    else none
  | _, _ => none

/-- Extraction followed by `JSON.parse` plus shape reading; the parsing of the
extracted span is an external library call, taken as a parameter. -/
def parseRecipeText (parseJson : String → Option RecipePayload) (text : String) :
    Option RecipePayload :=
  match extractJsonSpan text with
  | some s => parseJson s
  | none => none

/-- The parse-with-fallback step of the generation handler: the parsed payload when
one is found, the hard-coded fallback otherwise. -/
def recipeGenerationPayload (parseJson : String → Option RecipePayload)
    (text : String) (ingredients : List DetectedIngredient) : RecipePayload :=
  match parseRecipeText parseJson text with
  | some p => p
  | none => fallbackPayload ingredients

/-- A store with no documents and a healthy connection. -/
def emptyWorld : World :=
  ⟨[], [], [], [], [], false⟩

/-- A store with a healthy connection replaced by a failing one. -/
def failWorld : World :=
  ⟨[], [], [], [], [], true⟩

/-- A sample user message of the session used in concrete checks. -/
def msgU (content : String) : ChatMessage :=
  ⟨"u1", "s1", "user", content, 0, "general"⟩

/-- Two messages saved at clock values 10 and 20. -/
def itemsC1 : List (ChatMessage × Int) :=
  [(msgU "hello", 10), (msgU "again", 20)]

/-- A session that has never been summarized. -/
def sessC2 : ChatSession :=
  ⟨"u1", "s1", "New Recipe Chat", 0, 0, none, 6, none⟩

/-- Six stored messages of the session, all within the trailing day. -/
def msgsC2 : List ChatMessage :=
  [⟨"u1", "s1", "user", "m1", 1, "general"⟩,
   ⟨"u1", "s1", "assistant", "m2", 2, "general"⟩,
   ⟨"u1", "s1", "user", "m3", 3, "general"⟩,
   ⟨"u1", "s1", "assistant", "m4", 4, "general"⟩,
   ⟨"u1", "s1", "user", "m5", 5, "general"⟩,
   ⟨"u1", "s1", "assistant", "m6", 6, "general"⟩]

/-- A store holding the never-summarized session and its six recent messages. -/
def worldC2 : World :=
  ⟨msgsC2, [sessC2], [], [], [], false⟩

/-- A store holding three messages of one session at timestamps 1, 2 and 3. -/
def worldC3 : World :=
  ⟨[msgU "a", { msgU "b" with timestamp := 1 }, { msgU "c" with timestamp := 2 },
    { msgU "d" with timestamp := 3 }], [], [], [], [], false⟩

/-- An ingredient as detected in the newest generation session. -/
def tomatoNew : DetectedIngredient :=
  ⟨"Tomato", "2", 1⟩

/-- The same ingredient name, differently cased, from an older session. -/
def tomatoOld : DetectedIngredient :=
  ⟨"tomato", "5", 1/2⟩

/-- The older recipe session. -/
def rsOld : RecipeSession :=
  ⟨"u1", "rs1", [tomatoOld], [], [], 100⟩

/-- The newer recipe session. -/
def rsNew : RecipeSession :=
  ⟨"u1", "rs2", [tomatoNew, ⟨"Egg", "3", 1⟩], [], [], 200⟩

/-- A store holding the two recipe sessions, stored oldest first. -/
def worldC9 : World :=
  ⟨[], [], [], [rsOld, rsNew], [], false⟩

/-- The detected-ingredient list of the recipe-generation scenario. -/
def eggIngredients : List DetectedIngredient :=
  [⟨"egg", "2", 0.9⟩]

theorem startsWithL_iff (sub l : List Char) :
    startsWithL sub l = true ↔ ∃ q, l = sub ++ q := by
  induction sub generalizing l with
  | nil => simp [startsWithL]
  | cons a as ih =>
    cases l with
    | nil => simp [startsWithL]
    | cons b bs =>
      rw [startsWithL, Bool.and_eq_true, beq_iff_eq, ih]
      constructor
      · rintro ⟨rfl, q, rfl⟩
        exact ⟨q, rfl⟩
      · rintro ⟨q, h⟩
        injection h with h1 h2
        exact ⟨h1.symm, q, h2⟩

theorem hasSubL_iff (sub l : List Char) :
    hasSubL sub l = true ↔ OccursIn sub l := by
  induction l with
  | nil =>
    rw [hasSubL, startsWithL_iff]
    constructor
    · rintro ⟨q, h⟩
      exact ⟨[], q, h⟩
    · rintro ⟨p, q, h⟩
      cases p with
      | nil => exact ⟨q, h⟩
      | cons x xs => exact absurd h (by simp)
  | cons a t ih =>
    rw [hasSubL, Bool.or_eq_true, startsWithL_iff, ih]
    constructor
    · rintro (⟨q, hq⟩ | ⟨p, q, hp⟩)
      · exact ⟨[], q, by simpa using hq⟩
      · exact ⟨a :: p, q, by simp [hp]⟩
    · rintro ⟨p, q, h⟩
      cases p with
      | nil => exact Or.inl ⟨q, by simpa using h⟩
      | cons x xs =>
        injection h with h1 h2
        exact Or.inr ⟨xs, q, h2⟩

theorem strIncludes_iff (s sub : String) :
    strIncludes s sub = true ↔ OccursIn sub.data s.data :=
  hasSubL_iff sub.data s.data

/-- Claim C5: the spec states that dispatching `get_user_preferences` with an empty
parameter mapping returns `success = true` with the six defaulted preference
sub-fields. On the code this is false: `UserService.getUser` does not exist, the call
raises a `TypeError`, and the handler's own `catch` always produces the unsuccessful
envelope below — for every store state, clock and user. -/
theorem get_user_preferences_always_fails (w : World) (now : Int) (userId : String) :
    ToolService.executeTool w now userId ⟨"get_user_preferences", ToolParams.empty, ""⟩ =
      ⟨false, none, "Failed to retrieve user preferences"⟩ :=
  rfl

/-- Claim C10: `executeTool` is total, and whenever the dispatched handler raises an
error, the `catch` converts it into the envelope `success = false`, `data = null`,
message `"Failed to execute tool: <tool name>"`, so nothing propagates to the
caller. -/
theorem executeTool_catches_errors (w : World) (now : Int) (userId : String)
    (tc : ToolCall) (e : JsError)
    (h : ToolService.dispatchTool w now userId tc = .error e) :
    ToolService.executeTool w now userId tc =
      ⟨false, none, "Failed to execute tool: " ++ tc.tool⟩ := by
  unfold ToolService.executeTool
  rw [h]

theorem executeTool_catches_errors_witness :
    ToolService.executeTool failWorld 0 "u1" ⟨"get_user_recipes", ToolParams.empty, ""⟩ =
      ⟨false, none, "Failed to execute tool: get_user_recipes"⟩ :=
  executeTool_catches_errors failWorld 0 "u1" ⟨"get_user_recipes", ToolParams.empty, ""⟩
    (.dbError "Failed to fetch user recipes") rfl

/-- Claim C4: every tool name outside the eight handled ones yields the in-band
envelope `success = false` whose message contains the literal tool name, and
`executeTool` returns it normally rather than throwing. -/
theorem executeTool_unknown_tool (w : World) (now : Int) (userId : String)
    (tc : ToolCall) (h : tc.tool ∉ ToolService.handledTools) :
    ToolService.executeTool w now userId tc =
      ⟨false, none, "Unknown tool: " ++ tc.tool⟩ ∧
    OccursIn tc.tool.data ("Unknown tool: " ++ tc.tool).data := by
  simp only [ToolService.handledTools, List.mem_cons, List.not_mem_nil, or_false,
    not_or] at h
  obtain ⟨h1, h2, h3, h4, h5, h6, h7, h8⟩ := h
  refine ⟨?_, "Unknown tool: ".data, [], by simp [String.data_append]⟩
  have e1 : (tc.tool == "get_chat_history") = false := beq_eq_false_iff_ne.mpr h1
  have e2 : (tc.tool == "get_user_recipes") = false := beq_eq_false_iff_ne.mpr h2
  have e3 : (tc.tool == "search_recipes") = false := beq_eq_false_iff_ne.mpr h3
  have e4 : (tc.tool == "get_recipe_details") = false := beq_eq_false_iff_ne.mpr h4
  have e5 : (tc.tool == "get_user_preferences") = false := beq_eq_false_iff_ne.mpr h5
  have e6 : (tc.tool == "get_recent_ingredients") = false := beq_eq_false_iff_ne.mpr h6
  have e7 : (tc.tool == "get_cooking_history") = false := beq_eq_false_iff_ne.mpr h7
  have e8 : (tc.tool == "search_conversations") = false := beq_eq_false_iff_ne.mpr h8
  simp [ToolService.executeTool, ToolService.dispatchTool, e1, e2, e3, e4, e5, e6,
    e7, e8]

theorem executeTool_unknown_tool_witness :
    ToolService.executeTool emptyWorld 0 "u1" ⟨"frobnicate", ToolParams.empty, ""⟩ =
      ⟨false, none, "Unknown tool: frobnicate"⟩ ∧
    OccursIn "frobnicate".data ("Unknown tool: frobnicate").data :=
  executeTool_unknown_tool emptyWorld 0 "u1" ⟨"frobnicate", ToolParams.empty, ""⟩
    (by decide)

/-- Claim C6: in the single-call chat handler, at most one tool call is executed per
request; a first `tool_call` directive is the only one executed, and when the second
response parses as a `tool_call` directive again it is not executed but taken
verbatim as the final answer. -/
theorem chat_tool_phase_single_round (w : World) (now : Int) (userId : String)
    (first : AiMsg) (second : SecondParse) :
    (chatToolPhase w now userId first second).2.length ≤ 1 ∧
    (first.type ≠ "tool_call" → chatToolPhase w now userId first second = (first, [])) ∧
    (first.type = "tool_call" →
      (chatToolPhase w now userId first second).2 =
        [⟨first.tool, first.parameters, first.message⟩]) ∧
    (∀ a, first.type = "tool_call" → second = .parsed a →
      (chatToolPhase w now userId first second).1 = a) := by
  by_cases h : first.type = "tool_call"
  · refine ⟨?_, fun hn => absurd h hn, fun _ => ?_, fun a _ hs => ?_⟩
    · simp [chatToolPhase, h]
    · simp [chatToolPhase, h]
    · subst hs
      simp [chatToolPhase, h]
  · have e : (first.type == "tool_call") = false := beq_eq_false_iff_ne.mpr h
    refine ⟨?_, fun _ => ?_, fun hy => absurd hy h, fun a hy => absurd hy h⟩
    · simp [chatToolPhase, e]
    · simp [chatToolPhase, e]

theorem chat_tool_phase_single_round_witness :
    (chatToolPhase emptyWorld 0 "u1"
      ⟨"tool_call", "search_recipes", ToolParams.empty, "need data"⟩
      (.parsed ⟨"tool_call", "get_user_recipes", ToolParams.empty, "more data"⟩)).1 =
      ⟨"tool_call", "get_user_recipes", ToolParams.empty, "more data"⟩ ∧
    (chatToolPhase emptyWorld 0 "u1"
      ⟨"tool_call", "search_recipes", ToolParams.empty, "need data"⟩
      (.parsed ⟨"tool_call", "get_user_recipes", ToolParams.empty, "more data"⟩)).2.length ≤ 1 :=
  ⟨(chat_tool_phase_single_round emptyWorld 0 "u1"
      ⟨"tool_call", "search_recipes", ToolParams.empty, "need data"⟩
      (.parsed ⟨"tool_call", "get_user_recipes", ToolParams.empty, "more data"⟩)).2.2.2
      ⟨"tool_call", "get_user_recipes", ToolParams.empty, "more data"⟩ rfl rfl,
   (chat_tool_phase_single_round emptyWorld 0 "u1"
      ⟨"tool_call", "search_recipes", ToolParams.empty, "need data"⟩
      (.parsed ⟨"tool_call", "get_user_recipes", ToolParams.empty, "more data"⟩)).1⟩

/-- Claim C7: `checkContextNeed` flags a message exactly when its lowercased text
contains one of the literal substrings "yesterday", "earlier", "before", "previous";
the branch selector takes the `loadOlderContext` edge exactly when that flag is set;
and the two sample messages behave as specified. -/
theorem check_context_need_spec :
    (∀ msg : String, checkContextNeed msg = true ↔
      (OccursIn "yesterday".data (jsToLower msg).data ∨
       OccursIn "earlier".data (jsToLower msg).data ∨
       OccursIn "before".data (jsToLower msg).data ∨
       OccursIn "previous".data (jsToLower msg).data)) ∧
    (∀ st : WfState, shouldLoadOlderContext st = "loadOlder" ↔
      st.needsOlderContext = true) ∧
    checkContextNeed "What did I cook yesterday?" = true ∧
    checkContextNeed "What can I make tonight?" = false := by
  refine ⟨?_, ?_, by decide, by decide⟩
  · intro msg
    rw [checkContextNeed, Bool.or_eq_true, Bool.or_eq_true, Bool.or_eq_true,
      strIncludes_iff, strIncludes_iff, strIncludes_iff, strIncludes_iff]
    tauto
  · intro st
    cases h : st.needsOlderContext <;> simp [shouldLoadOlderContext, h]

theorem check_context_need_witness :
    checkContextNeed "What did I cook yesterday?" = true ∧
    checkContextNeed "What can I make tonight?" = false :=
  ⟨check_context_need_spec.2.2.1, check_context_need_spec.2.2.2⟩

/-- Claim C8: whenever no parseable JSON object is found in the generation model's
text, the handler produces the fixed fallback payload: a single basic recipe named
"Simple Stir Fry" whose ingredient list is the input detected-ingredient list entry
for entry with `available = true`, and no advanced recipes. -/
theorem recipe_generation_fallback (parseJson : String → Option RecipePayload)
    (text : String) (ingredients : List DetectedIngredient)
    (h : parseRecipeText parseJson text = none) :
    recipeGenerationPayload parseJson text ingredients = fallbackPayload ingredients ∧
    (recipeGenerationPayload parseJson text ingredients).advancedRecipes = [] ∧
    (recipeGenerationPayload parseJson text ingredients).basicRecipes =
      [fallbackStirFry ingredients] ∧
    (fallbackStirFry ingredients).name = "Simple Stir Fry" ∧
    (fallbackStirFry ingredients).ingredients =
      ingredients.map (fun ing => ⟨ing.name, ing.quantity, true, none⟩) ∧
    (fallbackStirFry ingredients).ingredients.map RecipeIngredient.item =
      ingredients.map DetectedIngredient.name ∧
    (fallbackStirFry ingredients).ingredients.length = ingredients.length ∧
    ∀ x ∈ (fallbackStirFry ingredients).ingredients, x.available = true := by
  have heq : recipeGenerationPayload parseJson text ingredients =
      fallbackPayload ingredients := by
    unfold recipeGenerationPayload
    rw [h]
  refine ⟨heq, by rw [heq]; rfl, by rw [heq]; rfl, rfl, rfl, ?_, ?_, ?_⟩
  · simp [fallbackStirFry]
  · simp [fallbackStirFry]
  · intro x hx
    simp only [fallbackStirFry, List.mem_map] at hx
    obtain ⟨ing, _, rfl⟩ := hx
    rfl

theorem recipe_generation_fallback_witness :
    recipeGenerationPayload (fun _ => none) "The model replied with prose only"
      eggIngredients = fallbackPayload eggIngredients ∧
    (fallbackStirFry eggIngredients).ingredients = [⟨"egg", "2", true, none⟩] :=
  ⟨(recipe_generation_fallback (fun _ => none) "The model replied with prose only"
      eggIngredients rfl).1, by decide⟩

theorem findSession_updateFirst (u s : String) (f : ChatSession → ChatSession)
    (hf : ∀ x : ChatSession, (f x).userId = x.userId ∧ (f x).sessionId = x.sessionId)
    (l : List ChatSession) :
    (ChatService.updateFirst u s f l).find?
        (fun x => x.userId == u && x.sessionId == s) =
      (l.find? (fun x => x.userId == u && x.sessionId == s)).map f := by
  induction l with
  | nil => rfl
  | cons x t ih =>
    by_cases hx : (x.userId == u && x.sessionId == s) = true
    · have hfx : ((f x).userId == u && (f x).sessionId == s) = true := by
        rw [(hf x).1, (hf x).2]
        exact hx
      rw [ChatService.updateFirst, if_pos hx]
      simp only [List.find?, hfx, hx]
      rfl
    · have hx' : (x.userId == u && x.sessionId == s) = false := by
        simpa using hx
      rw [ChatService.updateFirst, if_neg hx]
      simp only [List.find?, hx']
      exact ih

theorem saveMessage_count (w : World) (m : ChatMessage) (t : Int) (u s : String)
    (c : Nat) (hfail : w.dbFail = false) (hu : m.userId = u) (hs : m.sessionId = s)
    (hcount : (ChatService.findSession w u s).map ChatSession.messageCount = some c) :
    ∃ w1, ChatService.saveMessage w m t = .ok w1 ∧ w1.dbFail = false ∧
      (ChatService.findSession w1 u s).map ChatSession.messageCount = some (c + 1) := by
  subst hu
  subst hs
  obtain ⟨sess, hsess, hcnt⟩ :
      ∃ sess, ChatService.findSession w m.userId m.sessionId = some sess ∧
        sess.messageCount = c := by
    cases hf : ChatService.findSession w m.userId m.sessionId with
    | none => rw [hf] at hcount; cases hcount
    | some sess =>
      rw [hf] at hcount
      exact ⟨sess, rfl, by simpa using hcount⟩
  refine ⟨ChatService.updateSessionMessageCount
      { w with messages := w.messages ++ [{ m with timestamp := t }] }
      m.userId m.sessionId t, ?_, ?_, ?_⟩
  · simp [ChatService.saveMessage, hfail]
  · simp [ChatService.updateSessionMessageCount, hfail]
  · rw [ChatService.updateSessionMessageCount]
    simp only [hfail, Bool.false_eq_true, if_false]
    rw [ChatService.findSession]
    have hkeys : ∀ x : ChatSession,
        (({ x with messageCount := x.messageCount + 1, updatedAt := t } :
          ChatSession)).userId = x.userId ∧
        (({ x with messageCount := x.messageCount + 1, updatedAt := t } :
          ChatSession)).sessionId = x.sessionId :=
      fun x => ⟨rfl, rfl⟩
    rw [findSession_updateFirst m.userId m.sessionId _ hkeys]
    rw [ChatService.findSession] at hsess
    rw [hsess]
    simp [hcnt]

theorem saveMessages_count (u s : String) (items : List (ChatMessage × Int)) :
    ∀ (w : World) (c : Nat), w.dbFail = false →
    (∀ x ∈ items, x.1.userId = u ∧ x.1.sessionId = s) →
    (ChatService.findSession w u s).map ChatSession.messageCount = some c →
    ∃ w2, ChatService.saveMessages w items = .ok w2 ∧ w2.dbFail = false ∧
      (ChatService.findSession w2 u s).map ChatSession.messageCount =
        some (c + items.length) := by
  induction items with
  | nil =>
    intro w c h1 _ h3
    exact ⟨w, rfl, h1, by simpa using h3⟩
  | cons it rest ih =>
    intro w c h1 h2 h3
    obtain ⟨hu, hs⟩ := h2 it (List.mem_cons_self it rest)
    obtain ⟨w1, hw1, hf1, hc1⟩ := saveMessage_count w it.1 it.2 u s c h1 hu hs h3
    obtain ⟨w2, hw2, hf2, hc2⟩ :=
      ih w1 (c + 1) hf1 (fun x hx => h2 x (List.mem_cons_of_mem _ hx)) hc1
    refine ⟨w2, ?_, hf2, ?_⟩
    · rw [show it = (it.1, it.2) from rfl, ChatService.saveMessages, hw1]
      exact hw2
    · rw [hc2]
      congr 1
      simp only [List.length_cons]
      omega

/-- Claim C1: starting from a freshly created session (message count zero), `N`
successful `saveMessage` calls for that `(userId, sessionId)` leave the session's
`messageCount` equal to `N`: each save increments the stored counter by exactly one
and the counter is never recomputed from the stored messages. -/
theorem message_count_invariant (w : World) (u s : String) (t0 : Int)
    (items : List (ChatMessage × Int)) (hfail : w.dbFail = false)
    (hfresh : ChatService.findSession w u s = none)
    (hitems : ∀ x ∈ items, x.1.userId = u ∧ x.1.sessionId = s) :
    ∃ w1 sess w2,
      ChatService.createOrUpdateSession w u s none t0 = .ok (w1, sess) ∧
      sess.messageCount = 0 ∧
      ChatService.saveMessages w1 items = .ok w2 ∧
      (ChatService.findSession w2 u s).map ChatSession.messageCount =
        some items.length := by
  have hco : ChatService.createOrUpdateSession w u s none t0 =
      .ok ({ w with sessions := w.sessions ++
        [⟨u, s, "New Recipe Chat", t0, t0, none, 0, none⟩] },
        ⟨u, s, "New Recipe Chat", t0, t0, none, 0, none⟩) := by
    rw [ChatService.createOrUpdateSession, if_neg (by simp [hfail]), hfresh]
    rfl
  have hfind1 : ChatService.findSession
      { w with sessions := w.sessions ++
        [⟨u, s, "New Recipe Chat", t0, t0, none, 0, none⟩] } u s =
      some ⟨u, s, "New Recipe Chat", t0, t0, none, 0, none⟩ := by
    rw [ChatService.findSession] at hfresh ⊢
    simp only [List.find?_append, hfresh]
    simp
  obtain ⟨w2, hw2, _, hc2⟩ := saveMessages_count u s items
    { w with sessions := w.sessions ++
      [⟨u, s, "New Recipe Chat", t0, t0, none, 0, none⟩] }
    0 hfail hitems (by rw [hfind1]; rfl)
  refine ⟨_, _, w2, hco, rfl, hw2, ?_⟩
  rw [hc2]
  congr 1
  omega

theorem message_count_invariant_witness :
    ∃ w1 sess w2,
      ChatService.createOrUpdateSession emptyWorld "u1" "s1" none 5 = .ok (w1, sess) ∧
      sess.messageCount = 0 ∧
      ChatService.saveMessages w1 itemsC1 = .ok w2 ∧
      (ChatService.findSession w2 "u1" "s1").map ChatSession.messageCount = some 2 :=
  message_count_invariant emptyWorld "u1" "s1" 5 itemsC1 rfl rfl (by decide)

theorem unsummarized_length (w : World) (u s : String) (sess : ChatSession)
    (now : Int) (hfail : w.dbFail = false) :
    (match sess.lastSummarizedAt with
      | some t => (ChatService.getRecentMessages w u s 24 now).filter
          (fun (m : ChatMessage) => decide (t < m.timestamp))
      | none => ChatService.getRecentMessages w u s 24 now).length =
      unsummarizedCount w u s sess now := by
  have hrec : ChatService.getRecentMessages w u s 24 now =
      List.insertionSort msgAsc (w.messages.filter (fun m =>
        m.userId == u && m.sessionId == s &&
        decide (now - 24 * 60 * 60 * 1000 ≤ m.timestamp))) := by
    rw [ChatService.getRecentMessages, if_neg (by simp [hfail])]
  rw [unsummarizedCount]
  cases hlast : sess.lastSummarizedAt with
  | none =>
    rw [hrec, List.length_insertionSort]
    congr 1
    exact List.filter_congr (fun m _ => by simp)
  | some t =>
    rw [hrec]
    rw [((List.perm_insertionSort msgAsc _).filter
      (fun (m : ChatMessage) => decide (t < m.timestamp))).length_eq]
    rw [List.filter_filter]
    congr 1
    exact List.filter_congr (fun m _ => by rw [Bool.and_comm])

/-- Claim C2: `shouldSummarizeSession` returns true exactly when the session exists
and strictly more than 5 of its stored messages lie in the trailing 24 hours and
postdate `lastSummarizedAt` (all windowed messages when never summarized); in
particular it returns false for a nonexistent session, for which the right-hand side
is unsatisfiable. -/
theorem shouldSummarize_iff (w : World) (u s : String) (now : Int)
    (hfail : w.dbFail = false) :
    ChatService.shouldSummarizeSession w u s now = true ↔
      ∃ sess, ChatService.findSession w u s = some sess ∧
        5 < unsummarizedCount w u s sess now := by
  rw [ChatService.shouldSummarizeSession, if_neg (by simp [hfail])]
  cases hfind : ChatService.findSession w u s with
  | none => simp
  | some sess =>
    simp only [Option.some.injEq]
    rw [unsummarized_length w u s sess now hfail]
    constructor
    · intro h
      exact ⟨sess, rfl, by simpa using h⟩
    · rintro ⟨sess2, rfl, h⟩
      simpa using h

theorem shouldSummarize_iff_witness :
    ChatService.shouldSummarizeSession worldC2 "u1" "s1" 50 = true :=
  (shouldSummarize_iff worldC2 "u1" "s1" 50 rfl).mpr ⟨sessC2, rfl, by decide⟩

/-- Claim C3: `getOlderMessages` returns only messages of the given user and session
with timestamp strictly before `T`, in ascending timestamp order, never more than
`L` of them; and every qualifying stored message left out is no newer than any
returned one — the returned messages are the newest qualifying ones, selected
newest-first at the storage level and then reversed. -/
theorem getOlderMessages_spec (w : World) (u s : String) (T : Int) (L : Nat)
    (hfail : w.dbFail = false) :
    (∀ m ∈ ChatService.getOlderMessages w u s T L,
      m.userId = u ∧ m.sessionId = s ∧ m.timestamp < T) ∧
    (ChatService.getOlderMessages w u s T L).length ≤ L ∧
    List.Pairwise (fun a b : ChatMessage => a.timestamp ≤ b.timestamp)
      (ChatService.getOlderMessages w u s T L) ∧
    (∀ m ∈ w.messages, m.userId = u → m.sessionId = s → m.timestamp < T →
      m ∉ ChatService.getOlderMessages w u s T L →
      ∀ mr ∈ ChatService.getOlderMessages w u s T L,
        m.timestamp ≤ mr.timestamp) := by
  have hdef : ChatService.getOlderMessages w u s T L =
      ((List.insertionSort msgDesc (w.messages.filter (fun m =>
        m.userId == u && m.sessionId == s && decide (m.timestamp < T)))).take
          L).reverse := by
    rw [ChatService.getOlderMessages, if_neg (by simp [hfail])]
  set F := w.messages.filter (fun m =>
    m.userId == u && m.sessionId == s && decide (m.timestamp < T)) with hF
  set SL := List.insertionSort msgDesc F with hSL
  have hsorted : List.Pairwise msgDesc SL := List.sorted_insertionSort msgDesc F
  have hperm : SL.Perm F := List.perm_insertionSort msgDesc F
  refine ⟨?_, ?_, ?_, ?_⟩
  · intro m hm
    rw [hdef, List.mem_reverse] at hm
    have hmSL : m ∈ SL := (List.take_sublist L SL).subset hm
    have hmF : m ∈ F := hperm.mem_iff.mp hmSL
    rw [hF, List.mem_filter] at hmF
    obtain ⟨-, hp⟩ := hmF
    simp only [Bool.and_eq_true, beq_iff_eq, decide_eq_true_eq] at hp
    exact ⟨hp.1.1, hp.1.2, hp.2⟩
  · rw [hdef, List.length_reverse, List.length_take]
    exact min_le_left _ _
  · rw [hdef, List.pairwise_reverse]
    exact List.Pairwise.sublist (List.take_sublist L SL) hsorted
  · intro m hmem hu hs hT hnot mr hmr
    have hmF : m ∈ F := by
      rw [hF, List.mem_filter]
      refine ⟨hmem, ?_⟩
      simp only [Bool.and_eq_true, beq_iff_eq, decide_eq_true_eq]
      exact ⟨⟨hu, hs⟩, hT⟩
    have hmSL : m ∈ SL := hperm.mem_iff.mpr hmF
    rw [hdef, List.mem_reverse] at hnot
    rw [hdef, List.mem_reverse] at hmr
    have hsplit : SL.take L ++ SL.drop L = SL := List.take_append_drop L SL
    have hmdrop : m ∈ SL.drop L := by
      rcases List.mem_append.mp (by rw [hsplit]; exact hmSL) with h | h
      · exact absurd h hnot
      · exact h
    have hpw : List.Pairwise msgDesc (SL.take L ++ SL.drop L) := by
      rw [hsplit]
      exact hsorted
    exact (List.pairwise_append.mp hpw).2.2 mr hmr m hmdrop

theorem getOlderMessages_spec_witness :
    (ChatService.getOlderMessages worldC3 "u1" "s1" 100 2).length ≤ 2 :=
  (getOlderMessages_spec worldC3 "u1" "s1" 100 2 rfl).2.1

theorem dedup_foldl_find? (n : String) (l : List DetectedIngredient) :
    ∀ acc : List DetectedIngredient,
      (l.foldl ToolService.dedupStep acc).find?
          (fun i => jsToLower i.name == n) =
        (acc.find? (fun i => jsToLower i.name == n)).or
          (l.find? (fun i => jsToLower i.name == n)) := by
  induction l with
  | nil =>
    intro acc
    simp [List.find?_nil, Option.or_none]
  | cons ingredient t ih =>
    intro acc
    rw [List.foldl_cons, ih]
    rw [ToolService.dedupStep]
    cases hfound : acc.find?
        (fun i => jsToLower i.name == jsToLower ingredient.name) with
    | some j =>
      by_cases hp : (jsToLower ingredient.name == n) = true
      · have hn : jsToLower ingredient.name = n := beq_iff_eq.mp hp
        have hacc : acc.find? (fun i => jsToLower i.name == n) = some j := by
          rw [← hn]
          exact hfound
        rw [hacc]
        rfl
      · have hp' : (jsToLower ingredient.name == n) = false := by
          simpa using hp
        simp only [List.find?, hp']
    | none =>
      rw [List.find?_append, Option.or_assoc]
      congr 1
      by_cases hp : (jsToLower ingredient.name == n) = true
      · simp only [List.find?, hp]
        rfl
      · have hp' : (jsToLower ingredient.name == n) = false := by
          simpa using hp
        simp only [List.find?, hp', Option.none_or]

theorem dedupIngredients_find? (n : String) (l : List DetectedIngredient) :
    (ToolService.dedupIngredients l).find? (fun i => jsToLower i.name == n) =
      l.find? (fun i => jsToLower i.name == n) := by
  rw [ToolService.dedupIngredients, dedup_foldl_find? n l []]
  rfl

/-- Claim C9: the recent-ingredients tool flattens the user's recipe sessions in the
newest-first order of the storage query and deduplicates by case-insensitive name,
keeping the first occurrence encountered — so for each name the returned entry is the
first matching entry of the newest-first flattening, i.e. the occurrence from the
most recent session. -/
theorem recent_ingredients_newest_wins (w : World) (now : Int) (userId d : String)
    (p : ToolParams) (n : String) (hfail : w.dbFail = false) :
    ToolService.executeTool w now userId ⟨"get_recent_ingredients", p, d⟩ =
      ⟨true, some (.ingredientList
        ((ToolService.dedupIngredients
          (ToolService.recentSourceIngredients w userId (p.limit.getD 10))).take
            (p.limit.getD 10))),
        "Retrieved " ++ toString (ToolService.dedupIngredients
          (ToolService.recentSourceIngredients w userId
            (p.limit.getD 10))).length ++ " recent ingredients"⟩ ∧
    List.Pairwise rsessDesc
      (RecipeService.recipeSessionsQuery w userId (p.limit.getD 10)) ∧
    (ToolService.dedupIngredients
        (ToolService.recentSourceIngredients w userId (p.limit.getD 10))).find?
        (fun i => jsToLower i.name == n) =
      (ToolService.recentSourceIngredients w userId (p.limit.getD 10)).find?
        (fun i => jsToLower i.name == n) := by
  refine ⟨?_, ?_, dedupIngredients_find? n _⟩
  · have h1 : RecipeService.getUserRecipeSessions w userId (p.limit.getD 10) =
        .ok (RecipeService.recipeSessionsQuery w userId (p.limit.getD 10)) := by
      rw [RecipeService.getUserRecipeSessions, if_neg (by simp [hfail])]
    simp only [ToolService.executeTool, ToolService.dispatchTool,
      ToolService.getRecentIngredients, h1, ToolService.recentSourceIngredients,
      ToolService.dedupIngredients]
    rfl
  · exact List.Pairwise.sublist (List.take_sublist _ _)
      (List.sorted_insertionSort rsessDesc _)

theorem recent_ingredients_newest_wins_witness :
    ToolService.executeTool worldC9 0 "u1" ⟨"get_recent_ingredients",
      ToolParams.empty, ""⟩ =
      ⟨true, some (.ingredientList [tomatoNew, ⟨"Egg", "3", 1⟩]),
        "Retrieved 2 recent ingredients"⟩ ∧
    (ToolService.recentSourceIngredients worldC9 "u1" 10).find?
        (fun i => jsToLower i.name == "tomato") = some tomatoNew ∧
    (ToolService.dedupIngredients
        (ToolService.recentSourceIngredients worldC9 "u1" 10)).find?
        (fun i => jsToLower i.name == "tomato") =
      (ToolService.recentSourceIngredients worldC9 "u1" 10).find?
        (fun i => jsToLower i.name == "tomato") :=
  ⟨by decide, by decide,
    (recent_ingredients_newest_wins worldC9 0 "u1" "" ToolParams.empty "tomato"
      rfl).2.2⟩
